import Mathlib

/-!
Verification of the `service_followup` Odoo addon
(`src/addons/service_followup/models/followup.py`).

The development shallowly embeds the `ServiceFollowup` model and its
operations:

* the record fields of `service.followup` become a Lean structure
  (`Followup`); Odoo `Datetime` values are epoch seconds (`Int`),
  optional fields are `Option`s, with `none` standing for the falsy
  unset value (`False` in the Python API);
* `write` applies a value dictionary and then runs the
  `@api.constrains('rating')` check `_check_rating_range` exactly when
  the write touches the `rating` field, raising `ValidationError`
  (modelled as `Except.error` with the constraint message) —
  on error no updated record is produced, matching the transaction
  rollback of a failed Odoo write; the constraint reads the
  `fields.Integer` column as the ORM does, coalescing an unset value
  to `0`, which makes the source's `is not False` guard dead code;
* `action_mark_sent`, `action_log_reply`, `action_close` are the
  per-record bodies of the three action methods (the source iterates
  the recordset applying the same write to each member; the
  `message_post` chatter calls touch only the external audit log, never
  a record field, and are not part of the record state);
* `cron_followup_reminder` is the scheduled scan over an environment
  holding the followup store, the `mail.activity` store, the resolved
  "To Do" activity type (`none` when neither the XML id nor the search
  by name finds one) and the current clock.  A `.error` result models
  the `AttributeError` that Python would raise if `strftime` were
  called on a falsy `sent_at`.
-/

/-- The `state` selection field of `service.followup`:
`draft`, `sent`, `replied`, `closed`. -/
inductive FState
  | draft
  | sent
  | replied
  | closed
deriving DecidableEq, Repr

/-- One `service.followup` record.  Fields mirror the Python model
declaration; `Datetime` values are epoch seconds.  `rating` is
`Option Int`: `none` is the unset (NULL) column value, which the ORM
reads back as the integer `0` — see `check_rating_range`. -/
structure Followup where
  id : Nat
  name : String
  partner_id : Nat
  appointment_date : Option Int
  assigned_user_id : Nat
  state : FState
  sent_at : Option Int
  replied_at : Option Int
  rating : Option Int
  feedback : Option String
  chatbot_summary : Option String
deriving DecidableEq, Repr

/-- A value dictionary passed to `write`.  The outer `Option` is
presence of the key in the dictionary; for optional fields the inner
`Option` is the written value, `some none` writing the falsy unset
value. -/
structure WriteVals where
  state : Option FState := none
  sent_at : Option (Option Int) := none
  replied_at : Option (Option Int) := none
  rating : Option (Option Int) := none
  feedback : Option (Option String) := none
deriving DecidableEq, Repr

/-- Apply a value dictionary to a record (the field assignments a
`write` performs, before constraints run). -/
def apply_vals (r : Followup) (vals : WriteVals) : Followup :=
  { r with
    state := vals.state.getD r.state
    sent_at := vals.sent_at.getD r.sent_at
    replied_at := vals.replied_at.getD r.replied_at
    rating := vals.rating.getD r.rating
    feedback := vals.feedback.getD r.feedback }

/-- `_check_rating_range` (followup.py lines 86–91):
`if record.rating is not False and (record.rating < 1 or record.rating > 10)`
raise `ValidationError('Rating must be between 1 and 10.')`.
`rating` is a `fields.Integer`, and the ORM reads an unset integer
column as `0` (`convert_to_record` coalesces with `value or 0`), never
as `False` — so the `is not False` guard is always true on the int the
record returns and the range comparison alone decides.  The read is
`r.rating.getD 0`; in particular an unset or cleared rating reads as
`0` and fails `0 < 1`. -/
def check_rating_range (r : Followup) : Except String Unit :=
  let v := r.rating.getD 0
  if v < 1 || v > 10 then .error "Rating must be between 1 and 10."
  else .ok ()

/-- `write` on a single record: apply the values, then run the
`rating` constraint exactly when the write touches `rating`
(`@api.constrains('rating')` fires only for writes naming the field).
A raised `ValidationError` surfaces as `.error`; no updated record
escapes, matching the rollback of the failed write. -/
def Followup.write (r : Followup) (vals : WriteVals) : Except String Followup :=
  let r' := apply_vals r vals
  if vals.rating.isSome then
    match check_rating_range r' with
    | .error e => .error e
    | .ok _ => .ok r'
  else
    .ok r'

/-- `action_mark_sent` body for one record (followup.py lines 93–103):
`record.write({'state': 'sent', 'sent_at': fields.Datetime.now()})`.
`now` is the timestamp of the call. -/
def action_mark_sent (now : Int) (r : Followup) : Except String Followup :=
  r.write { state := some FState.sent, sent_at := some (some now) }

/-- `action_log_reply` body for one record (followup.py lines 105–115):
`record.write({'state': 'replied', 'replied_at': fields.Datetime.now()})`. -/
def action_log_reply (now : Int) (r : Followup) : Except String Followup :=
  r.write { state := some FState.replied, replied_at := some (some now) }

/-- `action_close` body for one record (followup.py lines 117–126):
`record.write({'state': 'closed'})`. -/
def action_close (r : Followup) : Except String Followup :=
  r.write { state := some FState.closed }

/-- Position of a state in the forward order
`draft < sent < replied < closed`. -/
def stateRank : FState → Nat
  | .draft => 0
  | .sent => 1
  | .replied => 2
  | .closed => 3

/-- Two-digit zero padding used by the `%m %d %H %M` format fields. -/
def pad2 (n : Nat) : String :=
  if n < 10 then "0" ++ toString n else toString n

/-- Gregorian civil date (year, month, day) from days since the epoch
1970-01-01 (the standard era-based conversion used by time libraries).
Nonnegative inputs only; `strftime_YmdHM` clamps at 0. -/
def civil_from_days (days : Nat) : Nat × Nat × Nat :=
  let z := days + 719468
  let era := z / 146097
  let doe := z % 146097
  let yoe := (doe - doe / 1460 + doe / 36524 - doe / 146096) / 365
  let y := yoe + era * 400
  let doy := doe - (365 * yoe + yoe / 4 - yoe / 100)
  let mp := (5 * doy + 2) / 153
  let d := doy - (153 * mp + 2) / 5 + 1
  let m := if mp < 10 then mp + 3 else mp - 9
  (if m ≤ 2 then y + 1 else y, m, d)

/-- `datetime.strftime('%Y-%m-%d %H:%M')` on an epoch-seconds value,
as used to format `followup.sent_at` in the reminder note. -/
def strftime_YmdHM (t : Int) : String :=
  let s := t.toNat
  let ymd := civil_from_days (s / 86400)
  let rem := s % 86400
  toString ymd.1 ++ "-" ++ pad2 ymd.2.1 ++ "-" ++ pad2 ymd.2.2 ++ " " ++
    pad2 (rem / 3600) ++ ":" ++ pad2 (rem % 3600 / 60)

/-- One `mail.activity` record, restricted to the columns the scan
reads and writes.  `res_model` is the target model name (the create
passes the matching `res_model_id`; `mail.activity` stores both and
the dedup search matches on the name). -/
structure Activity where
  res_model : String
  res_id : Nat
  activity_type_id : Nat
  summary : String
  note : String
  user_id : Nat
  date_deadline : Int
deriving DecidableEq, Repr

/-- The stores and clock `cron_followup_reminder` runs against:
the `service.followup` records (kept in the store's `_order`),
the `mail.activity` store, the resolved "To Do" activity type id
(`none` when neither `mail.mail_activity_data_todo` nor a search by
name `'To Do'` yields one), `fields.Datetime.now()` in epoch seconds
and `fields.Date.today()` as a day-resolution stamp comparable with
`date_deadline`. -/
structure Env where
  followups : List Followup
  activities : List Activity
  todo_activity_type : Option Nat
  now : Int
  today : Int
deriving DecidableEq, Repr

/-- The search domain of the scan (followup.py lines 138–143):
`state = 'sent'`, `sent_at != False`, `sent_at <= cutoff_date`,
`replied_at = False`. -/
def overdue_domain (cutoff : Int) (f : Followup) : Bool :=
  f.state == FState.sent &&
  f.sent_at.isSome &&
  (match f.sent_at with
   | some t => decide (t ≤ cutoff)
   | none => false) &&
  f.replied_at == none

/-- `self.search([...], limit=50)` with `cutoff_date = now -
relativedelta(days=2)`: the matching records, in store order, capped
at 50. -/
def search_overdue (env : Env) : List Followup :=
  (env.followups.filter (overdue_domain (env.now - 2 * 86400))).take 50

/-- The dedup query (followup.py lines 158–164): does a
`mail.activity` exist for this followup, this activity type and this
assignee with `date_deadline >= today`?  (`limit=1` makes the source
search an existence check.) -/
def existing_reminder (acts : List Activity) (ty : Nat) (today : Int)
    (f : Followup) : Bool :=
  acts.any fun a =>
    a.res_model == "service.followup" &&
    a.res_id == f.id &&
    a.activity_type_id == ty &&
    a.user_id == f.assigned_user_id &&
    decide (today ≤ a.date_deadline)

/-- The `mail.activity` create of the scan (followup.py lines 166–180).
Python evaluates `followup.sent_at.strftime('%Y-%m-%d %H:%M')`; on a
falsy `sent_at` that call would raise `AttributeError`, modelled as
`.error ()`. -/
def make_reminder (ty : Nat) (today : Int) (f : Followup) :
    Except Unit Activity :=
  match f.sent_at with
  | none => .error ()
  | some t =>
      .ok
        { res_model := "service.followup"
          res_id := f.id
          activity_type_id := ty
          summary := "Follow-up Reminder: " ++ f.name
          note := "This follow-up was sent on " ++ strftime_YmdHM t ++
            " and has not received a reply yet. Please check with the customer."
          user_id := f.assigned_user_id
          date_deadline := today }

/-- The `for followup in followups` loop of the scan: for each record,
skip when the dedup query finds an activity (newly created activities
are visible to the searches of later iterations of the same run),
otherwise create the reminder. -/
def reminder_loop (ty : Nat) (today : Int) :
    List Followup → List Activity → Except Unit (List Activity)
  | [], acts => .ok acts
  | f :: rest, acts =>
      if existing_reminder acts ty today f then
        reminder_loop ty today rest acts
      else
        match make_reminder ty today f with
        | .error e => .error e
        | .ok a => reminder_loop ty today rest (acts ++ [a])

/-- `cron_followup_reminder` (followup.py lines 128–180): search the
overdue followups, resolve the "To Do" activity type (returning with
no side effect when none resolves), then run the dedup-and-create
loop.  Only the `mail.activity` store changes. -/
def cron_followup_reminder (env : Env) : Except Unit Env :=
  match env.todo_activity_type with
  | none => .ok env
  | some ty =>
      match reminder_loop ty env.today (search_overdue env) env.activities with
      | .error e => .error e
      | .ok acts => .ok { env with activities := acts }

/-- A concrete record used by the closed witness statements. -/
def sampleFollowup : Followup :=
  { id := 1
    name := "A"
    partner_id := 1
    appointment_date := none
    assigned_user_id := 2
    state := FState.draft
    sent_at := none
    replied_at := none
    rating := none
    feedback := none
    chatbot_summary := none }

/-- A concrete record sitting in state `replied`. -/
def repliedSample : Followup :=
  { sampleFollowup with
    state := FState.replied
    sent_at := some 100
    replied_at := some 200 }

/-- C3: a write setting `rating = v` succeeds (leaving `rating = v`)
exactly when `1 ≤ v ≤ 10`, and raises `ValidationError` otherwise
(in particular for `v = 0` and `v = 11`). -/
theorem write_rating_range (r : Followup) (v : Int) :
    r.write { rating := some (some v) } =
      (if 1 ≤ v ∧ v ≤ 10 then Except.ok { r with rating := some v }
       else Except.error "Rating must be between 1 and 10.") := by
  by_cases h : 1 ≤ v ∧ v ≤ 10
  · have hb : (v < 1 || v > 10) = false := by
      simp only [Bool.or_eq_false_iff, decide_eq_false_iff_not]
      omega
    simp [Followup.write, apply_vals, check_rating_range, h, hb]
  · have hb : (v < 1 || v > 10) = true := by
      simp only [Bool.or_eq_true, decide_eq_true_eq]
      omega
    simp [Followup.write, apply_vals, check_rating_range, h, hb]

/-- C5, the code evaluated at the failing input: the rating cannot be
cleared — on a record rated 5, a write naming `rating` with the unset
value fires `_check_rating_range`, which reads the unset
`fields.Integer` as `0` and raises `ValidationError` (`0 < 1`),
against the docstring's "between 1 and 10 if set" and the spec's
optional field; a write not naming `rating` does not fire the
constraint and succeeds. -/
theorem write_clear_rating_raises :
    ({ sampleFollowup with rating := some 5 } : Followup).write
        { rating := some none } =
      Except.error "Rating must be between 1 and 10." ∧
    ({ sampleFollowup with rating := some 5 } : Followup).write
        { feedback := some (some "ok") } =
      Except.ok
        { sampleFollowup with rating := some 5, feedback := some "ok" } :=
  ⟨rfl, rfl⟩

/-- C6: each call to `action_mark_sent` leaves `state = sent` and
`sent_at` equal to that call's timestamp; a repeated call stays in
`sent` and overwrites `sent_at` with the newer timestamp
(last-write-wins, no error). -/
theorem action_mark_sent_last_write_wins (r : Followup) (n1 n2 : Int) :
    action_mark_sent n1 r =
      Except.ok { r with state := FState.sent, sent_at := some n1 } ∧
    (action_mark_sent n1 r).bind (action_mark_sent n2) =
      Except.ok { r with state := FState.sent, sent_at := some n2 } :=
  ⟨rfl, rfl⟩

/-- C7: a write carrying a `rating` outside `[1, 10]` raises the
`ValidationError` synchronously and yields no updated record — the
record the caller holds keeps every field's prior value. -/
theorem write_invalid_rating_rejected (r : Followup) (vals : WriteVals)
    (v : Int) (hv : vals.rating = some (some v)) (hout : v < 1 ∨ 10 < v) :
    r.write vals = Except.error "Rating must be between 1 and 10." ∧
    ∀ r', r.write vals ≠ Except.ok r' := by
  have hb : (v < 1 || v > 10) = true := by
    rcases hout with h | h <;> simp [h]
  have h1 : r.write vals = Except.error "Rating must be between 1 and 10." := by
    simp [Followup.write, apply_vals, hv, check_rating_range, hb]
  exact ⟨h1, fun r' hE => by rw [h1] at hE; exact Except.noConfusion hE⟩

/-- Witness for C7 at a concrete record and value dictionary: writing
`rating = 11` (together with a feedback text) is rejected with the
constraint message and yields no updated record. -/
theorem write_invalid_rating_rejected_witness :
    sampleFollowup.write
        { rating := some (some 11), feedback := some (some "great") } =
      Except.error "Rating must be between 1 and 10." ∧
    ∀ r', sampleFollowup.write
        { rating := some (some 11), feedback := some (some "great") } ≠
      Except.ok r' :=
  write_invalid_rating_rejected sampleFollowup
    { rating := some (some 11), feedback := some (some "great") } 11 rfl
    (Or.inr (by norm_num))

/-- C9: `action_close` sets `state = closed` and changes no other
field — timestamps, rating, feedback and the remaining fields keep
their prior values. -/
theorem action_close_frame (r : Followup) :
    ∃ r', action_close r = Except.ok r' ∧ r'.state = FState.closed ∧
      r'.id = r.id ∧ r'.name = r.name ∧ r'.partner_id = r.partner_id ∧
      r'.appointment_date = r.appointment_date ∧
      r'.assigned_user_id = r.assigned_user_id ∧
      r'.sent_at = r.sent_at ∧ r'.replied_at = r.replied_at ∧
      r'.rating = r.rating ∧ r'.feedback = r.feedback ∧
      r'.chatbot_summary = r.chatbot_summary :=
  ⟨{ r with state := FState.closed },
    rfl, rfl, rfl, rfl, rfl, rfl, rfl, rfl, rfl, rfl, rfl, rfl⟩

/-- C4, counterexample: on a record in state `replied`,
`action_mark_sent` succeeds and returns the record to `sent`, an
earlier state in the order `draft < sent < replied < closed`. -/
theorem mark_sent_moves_state_backward :
    repliedSample.state = FState.replied ∧
    action_mark_sent 300 repliedSample =
      Except.ok
        { repliedSample with state := FState.sent, sent_at := some 300 } ∧
    stateRank FState.sent < stateRank FState.replied :=
  ⟨rfl, rfl, by decide⟩

/-- C4, amended: the three operations set their target state
unconditionally — `action_mark_sent` always yields `sent`,
`action_log_reply` always yields `replied`, `action_close` always
yields `closed` — so `markSent` and `logReply` can move the state
backward; only `action_close`, whose target `closed` is last in the
order, never does. -/
theorem transitions_unguarded (r : Followup) (now : Int) :
    action_mark_sent now r =
      Except.ok { r with state := FState.sent, sent_at := some now } ∧
    action_log_reply now r =
      Except.ok { r with state := FState.replied, replied_at := some now } ∧
    action_close r = Except.ok { r with state := FState.closed } ∧
    stateRank r.state ≤ stateRank FState.closed :=
  ⟨rfl, rfl, rfl, by cases r.state <;> simp [stateRank]⟩

/-- The dedup query only sees more activities over a superset store:
an existing match survives appending further activities. -/
theorem existing_reminder_append (acts more : List Activity) (ty : Nat)
    (today : Int) (f : Followup)
    (h : existing_reminder acts ty today f = true) :
    existing_reminder (acts ++ more) ty today f = true := by
  unfold existing_reminder at h ⊢
  rw [List.any_append, h, Bool.true_or]

/-- An activity with the dedup key of `f` and a deadline of at least
`today` makes the dedup query succeed. -/
theorem existing_reminder_of_mem (acts : List Activity) (ty : Nat)
    (today : Int) (f : Followup) (a : Activity) (ha : a ∈ acts)
    (h1 : a.res_model = "service.followup") (h2 : a.res_id = f.id)
    (h3 : a.activity_type_id = ty) (h4 : a.user_id = f.assigned_user_id)
    (h5 : today ≤ a.date_deadline) :
    existing_reminder acts ty today f = true := by
  unfold existing_reminder
  rw [List.any_eq_true]
  exact ⟨a, ha, by simp [h1, h2, h3, h4, h5]⟩

/-- A successful pass of the dedup-and-create loop only appends to the
activity store. -/
theorem reminder_loop_extends (ty : Nat) (today : Int) :
    ∀ (fs : List Followup) (acts acts' : List Activity),
      reminder_loop ty today fs acts = Except.ok acts' →
      ∃ more, acts' = acts ++ more := by
  intro fs
  induction fs with
  | nil =>
      intro acts acts' h
      simp only [reminder_loop, Except.ok.injEq] at h
      exact ⟨[], by simp [h]⟩
  | cons f rest ih =>
      intro acts acts' h
      simp only [reminder_loop] at h
      by_cases hex : existing_reminder acts ty today f = true
      · rw [if_pos hex] at h
        exact ih acts acts' h
      · rw [if_neg hex] at h
        cases hm : make_reminder ty today f with
        | error e => rw [hm] at h; exact absurd h (by simp)
        | ok a =>
            rw [hm] at h
            obtain ⟨more, hmore⟩ := ih (acts ++ [a]) acts' h
            exact ⟨a :: more, by simp [hmore]⟩

/-- After a successful pass of the loop, every processed followup has
a matching reminder in the resulting activity store with a deadline on
or after today. -/
theorem reminder_loop_covers (ty : Nat) (today : Int) :
    ∀ (fs : List Followup) (acts acts' : List Activity),
      reminder_loop ty today fs acts = Except.ok acts' →
      ∀ f ∈ fs, existing_reminder acts' ty today f = true := by
  intro fs
  induction fs with
  | nil => intro acts acts' _ f hf; exact absurd hf (List.not_mem_nil f)
  | cons g rest ih =>
      intro acts acts' h f hf
      simp only [reminder_loop] at h
      by_cases hex : existing_reminder acts ty today g = true
      · rw [if_pos hex] at h
        rcases List.mem_cons.mp hf with hfg | hfr
        · obtain ⟨more, hmore⟩ := reminder_loop_extends ty today rest acts acts' h
          subst hfg
          exact hmore ▸ existing_reminder_append acts more ty today f hex
        · exact ih acts acts' h f hfr
      · rw [if_neg hex] at h
        cases hm : make_reminder ty today g with
        | error e => rw [hm] at h; exact absurd h (by simp)
        | ok a =>
            rw [hm] at h
            rcases List.mem_cons.mp hf with hfg | hfr
            · obtain ⟨more, hmore⟩ :=
                reminder_loop_extends ty today rest (acts ++ [a]) acts' h
              have ham : a ∈ acts' := by
                rw [hmore]; simp
              have hfields := hm
              unfold make_reminder at hfields
              cases hst : g.sent_at with
              | none => rw [hst] at hfields; exact absurd hfields (by simp)
              | some t =>
                  rw [hst] at hfields
                  simp only [Except.ok.injEq] at hfields
                  subst hfg
                  exact existing_reminder_of_mem acts' ty today f a ham
                    (by rw [← hfields]) (by rw [← hfields])
                    (by rw [← hfields]) (by rw [← hfields])
                    (by rw [← hfields])
            · exact ih (acts ++ [a]) acts' h f hfr

/-- When every followup of the batch already has a matching reminder,
the loop creates nothing and returns the store unchanged. -/
theorem reminder_loop_skips (ty : Nat) (today : Int) :
    ∀ (fs : List Followup) (acts : List Activity),
      (∀ f ∈ fs, existing_reminder acts ty today f = true) →
      reminder_loop ty today fs acts = Except.ok acts := by
  intro fs
  induction fs with
  | nil => intro acts _; rfl
  | cons g rest ih =>
      intro acts hall
      have hg : existing_reminder acts ty today g = true :=
        hall g (List.mem_cons_self g rest)
      simp only [reminder_loop, if_pos hg]
      exact ih acts fun f hf => hall f (List.mem_cons_of_mem g hf)

/-- When every followup of the batch has a set `sent_at`, the loop
never fails (no `strftime` on a falsy value). -/
theorem reminder_loop_total (ty : Nat) (today : Int) :
    ∀ (fs : List Followup) (acts : List Activity),
      (∀ f ∈ fs, f.sent_at.isSome = true) →
      ∃ acts', reminder_loop ty today fs acts = Except.ok acts' := by
  intro fs
  induction fs with
  | nil => intro acts _; exact ⟨acts, rfl⟩
  | cons g rest ih =>
      intro acts hall
      have hg : g.sent_at.isSome = true := hall g (List.mem_cons_self g rest)
      have hrest : ∀ f ∈ rest, f.sent_at.isSome = true :=
        fun f hf => hall f (List.mem_cons_of_mem g hf)
      by_cases hex : existing_reminder acts ty today g = true
      · obtain ⟨acts', h⟩ := ih acts hrest
        exact ⟨acts', by simp only [reminder_loop, if_pos hex]; exact h⟩
      · cases hst : g.sent_at with
        | none => rw [hst] at hg; exact absurd hg (by simp)
        | some t =>
            obtain ⟨acts', h⟩ := ih
              (acts ++
                [{ res_model := "service.followup"
                   res_id := g.id
                   activity_type_id := ty
                   summary := "Follow-up Reminder: " ++ g.name
                   note := "This follow-up was sent on " ++ strftime_YmdHM t ++
                     " and has not received a reply yet. Please check with the customer."
                   user_id := g.assigned_user_id
                   date_deadline := today }]) hrest
            refine ⟨acts', ?_⟩
            simp only [reminder_loop, if_neg hex, make_reminder, hst]
            exact h

/-- A successful pass of the loop creates at most one activity per
processed followup. -/
theorem reminder_loop_length (ty : Nat) (today : Int) :
    ∀ (fs : List Followup) (acts acts' : List Activity),
      reminder_loop ty today fs acts = Except.ok acts' →
      acts'.length ≤ acts.length + fs.length := by
  intro fs
  induction fs with
  | nil =>
      intro acts acts' h
      simp only [reminder_loop, Except.ok.injEq] at h
      simp [← h]
  | cons g rest ih =>
      intro acts acts' h
      simp only [reminder_loop] at h
      by_cases hex : existing_reminder acts ty today g = true
      · rw [if_pos hex] at h
        have := ih acts acts' h
        simp only [List.length_cons]
        omega
      · rw [if_neg hex] at h
        cases hm : make_reminder ty today g with
        | error e => rw [hm] at h; exact absurd h (by simp)
        | ok a =>
            rw [hm] at h
            have := ih (acts ++ [a]) acts' h
            simp only [List.length_append, List.length_cons,
              List.length_nil] at this ⊢
            omega

/-- When no "To Do" activity type resolves, the scan is a no-op. -/
theorem cron_none (env : Env) (hty : env.todo_activity_type = none) :
    cron_followup_reminder env = Except.ok env := by
  unfold cron_followup_reminder
  rw [hty]

/-- Unfolding of the scan once the activity type resolved. -/
theorem cron_some (env : Env) (ty : Nat)
    (hty : env.todo_activity_type = some ty) :
    cron_followup_reminder env =
      match reminder_loop ty env.today (search_overdue env) env.activities with
      | Except.error e => Except.error e
      | Except.ok acts => Except.ok { env with activities := acts } := by
  unfold cron_followup_reminder
  rw [hty]

/-- A scan whose type resolution succeeded and whose loop leaves the
activity store untouched returns the environment unchanged. -/
theorem cron_eq_of_skip (ty : Nat) (env : Env)
    (hty : env.todo_activity_type = some ty)
    (hskip : reminder_loop ty env.today (search_overdue env) env.activities =
      Except.ok env.activities) :
    cron_followup_reminder env = Except.ok env := by
  rw [cron_some env ty hty, hskip]

/-- C10: formatting the reminder note never dereferences a falsy
timestamp — every record the search returns has `sent_at` set, so the
scan always completes without the `AttributeError` a
`False.strftime(...)` call would raise. -/
theorem cron_strftime_safe (env : Env) :
    (∀ f ∈ search_overdue env, f.sent_at.isSome = true) ∧
    ∃ env', cron_followup_reminder env = Except.ok env' := by
  have hs : ∀ f ∈ search_overdue env, f.sent_at.isSome = true := by
    intro f hf
    have hmem : f ∈ env.followups.filter (overdue_domain (env.now - 2 * 86400)) :=
      List.take_subset _ _ hf
    have hp := (List.mem_filter.mp hmem).2
    unfold overdue_domain at hp
    simp only [Bool.and_eq_true] at hp
    exact hp.1.1.2
  refine ⟨hs, ?_⟩
  cases hty : env.todo_activity_type with
  | none => exact ⟨env, cron_none env hty⟩
  | some ty =>
      obtain ⟨acts', h⟩ :=
        reminder_loop_total ty env.today (search_overdue env) env.activities hs
      exact ⟨{ env with activities := acts' }, by rw [cron_some env ty hty, h]⟩

/-- C8: one scan invocation processes at most the 50 records of the
capped search, hence creates at most 50 reminder activities, whatever
the store holds. -/
theorem cron_batch_cap (env env' : Env)
    (h : cron_followup_reminder env = Except.ok env') :
    env'.activities.length ≤ env.activities.length + 50 := by
  cases hty : env.todo_activity_type with
  | none =>
      rw [cron_none env hty] at h
      simp only [Except.ok.injEq] at h
      subst h
      omega
  | some ty =>
      rw [cron_some env ty hty] at h
      cases hloop : reminder_loop ty env.today (search_overdue env) env.activities with
      | error e => rw [hloop] at h; exact absurd h (by simp)
      | ok acts =>
          rw [hloop] at h
          simp only [Except.ok.injEq] at h
          subst h
          have h1 := reminder_loop_length ty env.today (search_overdue env)
            env.activities acts hloop
          have h2 : (search_overdue env).length ≤ 50 := by
            unfold search_overdue
            rw [List.length_take]
            exact min_le_left _ _
          show acts.length ≤ env.activities.length + 50
          omega

/-- C2: the scan is idempotent within a day — immediately rerunning it
on the state a successful run produced creates no further activity,
because each record of the batch now has a matching reminder with
deadline on or after today and is skipped. -/
theorem cron_idempotent_within_day (env env' : Env)
    (h : cron_followup_reminder env = Except.ok env') :
    cron_followup_reminder env' = Except.ok env' := by
  cases hty : env.todo_activity_type with
  | none =>
      rw [cron_none env hty] at h
      simp only [Except.ok.injEq] at h
      subst h
      exact cron_none env hty
  | some ty =>
      rw [cron_some env ty hty] at h
      cases hloop : reminder_loop ty env.today (search_overdue env) env.activities with
      | error e => rw [hloop] at h; exact absurd h (by simp)
      | ok acts =>
          rw [hloop] at h
          simp only [Except.ok.injEq] at h
          subst h
          exact cron_eq_of_skip ty { env with activities := acts } hty
            (reminder_loop_skips ty env.today (search_overdue env) acts
              (reminder_loop_covers ty env.today (search_overdue env)
                env.activities acts hloop))

/-- C1: with exactly the three followups A (sent, `sent_at` at least 2
days old, unanswered), B (sent only 1 day ago) and C (replied) in the
store and no prior activities, one scan creates exactly one reminder:
attached to A, assigned to A's assignee, due today. -/
theorem cron_single_overdue (env : Env) (A B C : Followup) (tA : Int)
    (ty : Nat)
    (hfs : env.followups = [A, B, C])
    (hacts : env.activities = [])
    (hty : env.todo_activity_type = some ty)
    (hAs : A.state = FState.sent) (hAt : A.sent_at = some tA)
    (hAcut : tA ≤ env.now - 2 * 86400) (hAr : A.replied_at = none)
    (hBs : B.state = FState.sent) (hBt : B.sent_at = some (env.now - 86400))
    (hBr : B.replied_at = none)
    (hCs : C.state = FState.replied) :
    ∃ a, cron_followup_reminder env =
        Except.ok { env with activities := [a] } ∧
      a.res_id = A.id ∧ a.user_id = A.assigned_user_id ∧
      a.date_deadline = env.today := by
  have hAcut' : tA ≤ env.now - 172800 := by omega
  have hBnot : ¬(env.now - 86400 ≤ env.now - 172800) := by omega
  have hsearch : search_overdue env = [A] := by
    unfold search_overdue
    rw [hfs]
    simp [overdue_domain, hAs, hAt, hAr, hBt, hCs, hAcut', hBnot]
  refine ⟨{ res_model := "service.followup"
            res_id := A.id
            activity_type_id := ty
            summary := "Follow-up Reminder: " ++ A.name
            note := "This follow-up was sent on " ++ strftime_YmdHM tA ++
              " and has not received a reply yet. Please check with the customer."
            user_id := A.assigned_user_id
            date_deadline := env.today },
    ?_, rfl, rfl, rfl⟩
  rw [cron_some env ty hty, hsearch, hacts]
  simp [reminder_loop, existing_reminder, make_reminder, hAt]

/-- Concrete followup A for the scenario witnesses: sent 3 days before
the clock below, unanswered. -/
def wA : Followup :=
  { id := 1, name := "A", partner_id := 1, appointment_date := none,
    assigned_user_id := 7, state := FState.sent, sent_at := some 40800,
    replied_at := none, rating := none, feedback := none,
    chatbot_summary := none }

/-- Concrete followup B: sent 1 day before the clock below. -/
def wB : Followup :=
  { wA with id := 2, name := "B", sent_at := some 213600 }

/-- Concrete followup C: already replied. -/
def wC : Followup :=
  { wA with
    id := 3
    name := "C"
    state := FState.replied
    replied_at := some 250000 }

/-- Concrete scan environment: the three scenario followups, an empty
activity store, a resolved activity type and the clock at 300000 s. -/
def wEnv : Env :=
  { followups := [wA, wB, wC]
    activities := []
    todo_activity_type := some 5
    now := 300000
    today := 3 }

/-- The environment after one scan over `wEnv`: exactly the reminder
for A was created. -/
def wEnvAfter : Env :=
  { wEnv with
    activities :=
      [{ res_model := "service.followup", res_id := 1,
         activity_type_id := 5,
         summary := "Follow-up Reminder: " ++ "A",
         note := "This follow-up was sent on " ++ strftime_YmdHM 40800 ++
           " and has not received a reply yet. Please check with the customer.",
         user_id := 7, date_deadline := 3 }] }

/-- Witness for C1 at the concrete scenario: the scan over `wEnv`
creates exactly one reminder, attached to A, assigned to A's assignee,
due today. -/
theorem cron_single_overdue_witness :
    ∃ a, cron_followup_reminder wEnv =
        Except.ok { wEnv with activities := [a] } ∧
      a.res_id = wA.id ∧ a.user_id = wA.assigned_user_id ∧
      a.date_deadline = wEnv.today :=
  cron_single_overdue wEnv wA wB wC 40800 5 rfl rfl rfl rfl rfl (by decide)
    rfl rfl (by decide) rfl rfl

/-- Witness for C2 at the concrete scenario: rerunning the scan on the
state the first run produced changes nothing. -/
theorem cron_idempotent_within_day_witness :
    cron_followup_reminder wEnvAfter = Except.ok wEnvAfter :=
  cron_idempotent_within_day wEnv wEnvAfter rfl

/-- Witness for C8 at the concrete scenario: the run out of `wEnv`
created at most 50 activities. -/
theorem cron_batch_cap_witness :
    wEnvAfter.activities.length ≤ wEnv.activities.length + 50 :=
  cron_batch_cap wEnv wEnvAfter rfl
